import Mathlib

/-!
Verification of the PX4-derived mission feasibility checker
(`src/modules/navigator/mission_feasibility_checker.cpp`) and the
Euler-from-DCM constructor (`matrix/Euler.hpp`).

Machine floats are modelled as rationals; the external geo / trig
collaborators (`get_distance_to_next_waypoint`, `tanf ∘ radians`,
`sqrtf`, `asin`, `atan2`) are abstract function fields of the context,
since every claim is about the comparison logic of the checker, never
about the numeric value of a trig function.
-/

namespace MFC

/-- Navigation command enumeration, exactly the commands named in
`checkMissionItemValidity`; `OTHER` stands for any integer command code
outside that list (the enum in the source is an open integer type). -/
inductive NavCmd where
  | IDLE
  | WAYPOINT
  | LOITER_UNLIMITED
  | LOITER_TIME_LIMIT
  | RETURN_TO_LAUNCH
  | LAND
  | TAKEOFF
  | LOITER_TO_ALT
  | VTOL_TAKEOFF
  | VTOL_LAND
  | DELAY
  | CONDITION_GATE
  | DO_WINCH
  | DO_GRIPPER
  | DO_JUMP
  | DO_CHANGE_SPEED
  | DO_SET_HOME
  | DO_SET_SERVO
  | DO_SET_ACTUATOR
  | DO_LAND_START
  | DO_TRIGGER_CONTROL
  | DO_DIGICAM_CONTROL
  | IMAGE_START_CAPTURE
  | IMAGE_STOP_CAPTURE
  | VIDEO_START_CAPTURE
  | VIDEO_STOP_CAPTURE
  | DO_CONTROL_VIDEO
  | DO_MOUNT_CONFIGURE
  | DO_MOUNT_CONTROL
  | DO_GIMBAL_MANAGER_PITCHYAW
  | DO_GIMBAL_MANAGER_CONFIGURE
  | DO_SET_ROI
  | DO_SET_ROI_LOCATION
  | DO_SET_ROI_WPNEXT_OFFSET
  | DO_SET_ROI_NONE
  | DO_SET_CAM_TRIGG_DIST
  | OBLIQUE_SURVEY
  | DO_SET_CAM_TRIGG_INTERVAL
  | SET_CAMERA_MODE
  | SET_CAMERA_ZOOM
  | SET_CAMERA_FOCUS
  | DO_VTOL_TRANSITION
  | OTHER (code : Nat)
  deriving DecidableEq, Repr

/-- `mission_item_s`, restricted to the fields the checker reads. -/
structure MissionItem where
  nav_cmd : NavCmd
  lat : ℚ
  lon : ℚ
  altitude : ℚ
  altitude_is_relative : Bool
  acceptance_radius : ℚ
  loiter_radius : ℚ
  param0 : ℚ
  param1 : ℚ
  deriving DecidableEq, Repr

/-- Typed event records; one constructor per event id of the checker.
Payloads are kept only where a claim refers to them. -/
inductive Event where
  | NoPositionLock
  | StorageFailure
  | GeofenceRequiresHome
  | GeofenceViolation (idx : Nat)
  | NoHomeRelativeAlt (idx : Nat)
  | WaypointBelowHome (idx : Nat)
  | UnsupportedCommand (idx : Nat)
  | ActuatorIndexOutOfBounds
  | ActuatorValueOutOfBounds
  | StartsWithLanding
  | TakeoffAltTooLow (min_m : ℚ)
  | TakeoffNotFirst
  | FirstWaypointTooFar (dist_m max_m : ℚ)
  | WaypointDistanceTooFar (dist_m max_m : ℚ)
  | GateCoincidence (dist_m min_m : ℚ)
  | MultipleLandStart
  | LandAngleParamMissing
  | ApproachRequired
  | ApproachBelowLand
  | LandInsideOrbit
  | UnsupportedApproach
  | GlideSlopeTooSteep
  | CorrectGlideSlope
  | LandBeforeRTL
  | InvalidLandStart
  | TakeoffRequired
  | LandingRequired
  | TakeoffOrLandingMissing
  | AddLandingOrRemoveTakeoff
  | AddTakeoffOrRemoveLanding
  deriving DecidableEq, Repr

/-- The checker's inputs: the persisted mission (an entry is `none` when
the storage read of that index fails), the navigator state snapshot, the
geofence collaborator, the parameter store entry `FW_LND_ANG`, and the
abstract geo / trig collaborators. -/
structure Ctx where
  mission : List (Option MissionItem)
  home_global_position_valid : Bool
  home_alt_valid : Bool
  home_lat : ℚ
  home_lon : ℚ
  home_alt : ℚ
  landed : Bool
  is_vtol : Bool
  is_fixed_wing : Bool
  takeoff_land_required : Nat
  default_acceptance_radius : ℚ
  geofence_valid : Bool
  geofence_home_required : Bool
  geofence_check : MissionItem → Bool
  fw_lnd_ang : Option ℚ
  dist : ℚ → ℚ → ℚ → ℚ → ℚ
  tanRad : ℚ → ℚ
  sqrtQ : ℚ → ℚ

/-- `dm_read`: random access into the persisted mission; `none` is a
read failure (`bytes_read != size`). -/
def dmRead (c : Ctx) (i : Nat) : Option MissionItem :=
  (c.mission.get? i).join

/-- Result of a generic sub-check: pass flag, events emitted in order,
and whether the sub-check set `mission_result->warning`. -/
structure SubOut where
  ok : Bool
  events : List Event
  warning : Bool
  deriving DecidableEq, Repr

/-- Result of `checkTakeoff`, which additionally owns `_has_takeoff`. -/
structure TkOut where
  ok : Bool
  events : List Event
  has_takeoff : Bool
  deriving DecidableEq, Repr

/-- Result of the landing checks, which additionally own `_has_landing`. -/
structure LdOut where
  ok : Bool
  events : List Event
  has_landing : Bool
  deriving DecidableEq, Repr

/-- Result of the whole `checkMissionFeasible` call. -/
structure CheckOut where
  feasible : Bool
  events : List Event
  warning : Bool
  has_takeoff : Bool
  has_landing : Bool
  deriving DecidableEq, Repr

/-- `NAV_EPSILON_POSITION`; the header defining it is not in the
provided sources, the exact value is irrelevant to every claim. -/
def NAV_EPSILON_POSITION : ℚ := 1 / 1000

/-- `FLT_EPSILON` of IEEE-754 single precision. -/
def FLT_EPSILON : ℚ := 1 / 8388608

/-- `PWM_DEFAULT_MAX` from `drv_pwm_output.h` (not in the provided
sources; the value is irrelevant to every claim). -/
def PWM_DEFAULT_MAX : ℚ := 2000

/-- The supported-command test of `checkMissionItemValidity`
(the negated 42-way disjunction, lines 209-250). -/
def isSupportedCmd (cmd : NavCmd) : Bool :=
  cmd == .IDLE || cmd == .WAYPOINT || cmd == .LOITER_UNLIMITED ||
  cmd == .LOITER_TIME_LIMIT || cmd == .RETURN_TO_LAUNCH || cmd == .LAND ||
  cmd == .TAKEOFF || cmd == .LOITER_TO_ALT || cmd == .VTOL_TAKEOFF ||
  cmd == .VTOL_LAND || cmd == .DELAY || cmd == .CONDITION_GATE ||
  cmd == .DO_WINCH || cmd == .DO_GRIPPER || cmd == .DO_JUMP ||
  cmd == .DO_CHANGE_SPEED || cmd == .DO_SET_HOME || cmd == .DO_SET_SERVO ||
  cmd == .DO_SET_ACTUATOR || cmd == .DO_LAND_START ||
  cmd == .DO_TRIGGER_CONTROL || cmd == .DO_DIGICAM_CONTROL ||
  cmd == .IMAGE_START_CAPTURE || cmd == .IMAGE_STOP_CAPTURE ||
  cmd == .VIDEO_START_CAPTURE || cmd == .VIDEO_STOP_CAPTURE ||
  cmd == .DO_CONTROL_VIDEO || cmd == .DO_MOUNT_CONFIGURE ||
  cmd == .DO_MOUNT_CONTROL || cmd == .DO_GIMBAL_MANAGER_PITCHYAW ||
  cmd == .DO_GIMBAL_MANAGER_CONFIGURE || cmd == .DO_SET_ROI ||
  cmd == .DO_SET_ROI_LOCATION || cmd == .DO_SET_ROI_WPNEXT_OFFSET ||
  cmd == .DO_SET_ROI_NONE || cmd == .DO_SET_CAM_TRIGG_DIST ||
  cmd == .OBLIQUE_SURVEY || cmd == .DO_SET_CAM_TRIGG_INTERVAL ||
  cmd == .SET_CAMERA_MODE || cmd == .SET_CAMERA_ZOOM ||
  cmd == .SET_CAMERA_FOCUS || cmd == .DO_VTOL_TRANSITION

/-- The allowed-before-takeoff test of `checkTakeoff` (the negated
29-way disjunction, lines 356-384). -/
def allowedBeforeTakeoff (cmd : NavCmd) : Bool :=
  cmd == .IDLE || cmd == .DELAY || cmd == .DO_JUMP ||
  cmd == .DO_CHANGE_SPEED || cmd == .DO_SET_HOME || cmd == .DO_SET_SERVO ||
  cmd == .DO_LAND_START || cmd == .DO_TRIGGER_CONTROL ||
  cmd == .DO_DIGICAM_CONTROL || cmd == .IMAGE_START_CAPTURE ||
  cmd == .IMAGE_STOP_CAPTURE || cmd == .VIDEO_START_CAPTURE ||
  cmd == .VIDEO_STOP_CAPTURE || cmd == .DO_CONTROL_VIDEO ||
  cmd == .DO_MOUNT_CONFIGURE || cmd == .DO_MOUNT_CONTROL ||
  cmd == .DO_GIMBAL_MANAGER_PITCHYAW || cmd == .DO_GIMBAL_MANAGER_CONFIGURE ||
  cmd == .DO_SET_ROI || cmd == .DO_SET_ROI_LOCATION ||
  cmd == .DO_SET_ROI_WPNEXT_OFFSET || cmd == .DO_SET_ROI_NONE ||
  cmd == .DO_SET_CAM_TRIGG_DIST || cmd == .OBLIQUE_SURVEY ||
  cmd == .DO_SET_CAM_TRIGG_INTERVAL || cmd == .SET_CAMERA_MODE ||
  cmd == .SET_CAMERA_ZOOM || cmd == .SET_CAMERA_FOCUS ||
  cmd == .DO_VTOL_TRANSITION

/-- Modelled from the spec: `MissionBlock::item_contains_position` is not
among the provided sources; §3 of the spec lists the positional-navigation
subset of the command enumeration.  `CONDITION_GATE` is included as well:
gate items carry a position, and §4.4 requires gate items to reach the
gate-coincidence comparison of `checkDistancesBetweenWaypoints`, which
sits behind this very filter. -/
def item_contains_position (it : MissionItem) : Bool :=
  it.nav_cmd == .WAYPOINT || it.nav_cmd == .LOITER_UNLIMITED ||
  it.nav_cmd == .LOITER_TIME_LIMIT || it.nav_cmd == .LOITER_TO_ALT ||
  it.nav_cmd == .TAKEOFF || it.nav_cmd == .VTOL_TAKEOFF ||
  it.nav_cmd == .LAND || it.nav_cmd == .VTOL_LAND ||
  it.nav_cmd == .RETURN_TO_LAUNCH || it.nav_cmd == .CONDITION_GATE

/-- Altitude normalization to AMSL used at lines 137, 179 and 486-489:
`altitude + home_alt` when the stored altitude is relative. -/
def normAlt (home_alt : ℚ) (it : MissionItem) : ℚ :=
  if it.altitude_is_relative then it.altitude + home_alt else it.altitude

/-- Takeoff altitude above home (lines 307-309): the stored altitude if
relative, otherwise the stored altitude minus home altitude. -/
def takeoffAltAboveHome (home_alt : ℚ) (it : MissionItem) : ℚ :=
  if it.altitude_is_relative then it.altitude else it.altitude - home_alt

/-- Acceptance-radius selection for the takeoff check (lines 312-316):
the item's radius when it exceeds `NAV_EPSILON_POSITION`, else the
default. -/
def takeoffAcceptanceRadius (default_radius : ℚ) (it : MissionItem) : ℚ :=
  if it.acceptance_radius > NAV_EPSILON_POSITION then it.acceptance_radius
  else default_radius

/-- Loop of `checkDistanceToFirstWaypoint` (lines 733-766). -/
def dfwLoop (c : Ctx) (max_distance : ℚ) : List Nat → SubOut
  | [] => ⟨true, [], false⟩
  | i :: rest =>
    match dmRead c i with
    | none => ⟨false, [.StorageFailure], false⟩
    | some it =>
      if item_contains_position it then
        let dist_to_1wp := c.dist it.lat it.lon c.home_lat c.home_lon
        if dist_to_1wp < max_distance then ⟨true, [], false⟩
        else ⟨false, [.FirstWaypointTooFar dist_to_1wp max_distance], true⟩
      else dfwLoop c max_distance rest

/-- `checkDistanceToFirstWaypoint` (lines 724-770). -/
def checkDistanceToFirstWaypoint (c : Ctx) (max_distance : ℚ) : SubOut :=
  if max_distance ≤ 0 then ⟨true, [], false⟩
  else dfwLoop c max_distance (List.range c.mission.length)

/-- Loop of `checkDistancesBetweenWaypoints` (lines 784-839); the
`Option` state is the previous positional item's (lat, lon, cmd),
replacing the NaN-initialised `last_lat`/`last_lon`/`last_cmd`. -/
def dbwLoop (c : Ctx) (max_distance : ℚ) :
    List Nat → Option (ℚ × ℚ × NavCmd) → SubOut
  | [], _ => ⟨true, [], false⟩
  | i :: rest, last =>
    match dmRead c i with
    | none => ⟨false, [.StorageFailure], false⟩
    | some it =>
      if item_contains_position it then
        match last with
        | none => dbwLoop c max_distance rest (some (it.lat, it.lon, it.nav_cmd))
        | some (last_lat, last_lon, last_cmd) =>
          let dist_between_waypoints := c.dist it.lat it.lon last_lat last_lon
          if dist_between_waypoints > max_distance then
            ⟨false, [.WaypointDistanceTooFar dist_between_waypoints max_distance], true⟩
          else if dist_between_waypoints < 1/20 ∧
              (it.nav_cmd = .CONDITION_GATE ∨ last_cmd = .CONDITION_GATE) then
            ⟨false, [.GateCoincidence dist_between_waypoints (1/20)], true⟩
          else dbwLoop c max_distance rest (some (it.lat, it.lon, it.nav_cmd))
      else dbwLoop c max_distance rest last

/-- `checkDistancesBetweenWaypoints` (lines 772-843). -/
def checkDistancesBetweenWaypoints (c : Ctx) (max_distance : ℚ) : SubOut :=
  if max_distance ≤ 0 then ⟨true, [], false⟩
  else dbwLoop c max_distance (List.range c.mission.length) none

/-- Loop of `checkGeofence` (lines 121-146); `home_valid` is the global
home position validity passed by the orchestrator. -/
def gfLoop (c : Ctx) (home_valid : Bool) : List Nat → SubOut
  | [] => ⟨true, [], false⟩
  | i :: rest =>
    match dmRead c i with
    | none => ⟨false, [], false⟩
    | some it =>
      if it.altitude_is_relative ∧ ¬home_valid then
        ⟨false, [.GeofenceRequiresHome], false⟩
      else
        let it2 := { it with altitude := normAlt c.home_alt it }
        if item_contains_position it2 ∧ ¬c.geofence_check it2 then
          ⟨false, [.GeofenceViolation (i + 1)], false⟩
        else gfLoop c home_valid rest

/-- `checkGeofence` (lines 110-150): the home-required test runs before
the geofence-validity test. -/
def checkGeofence (c : Ctx) (home_valid : Bool) : SubOut :=
  if c.geofence_home_required ∧ ¬home_valid then
    ⟨false, [.GeofenceRequiresHome], false⟩
  else if c.geofence_valid then
    gfLoop c home_valid (List.range c.mission.length)
  else ⟨true, [], false⟩

/-- Loop of `checkHomePositionAltitude` (lines 156-188): a read failure
sets the warning flag but emits no event; a below-home positional item
emits a warning event and continues. -/
def hpaLoop (c : Ctx) : List Nat → SubOut
  | [] => ⟨true, [], false⟩
  | i :: rest =>
    match dmRead c i with
    | none => ⟨false, [], true⟩
    | some it =>
      if it.altitude_is_relative ∧ ¬c.home_alt_valid ∧ item_contains_position it then
        ⟨false, [.NoHomeRelativeAlt (i + 1)], true⟩
      else
        let wp_alt := normAlt c.home_alt it
        if c.home_alt_valid ∧ c.home_alt > wp_alt ∧ item_contains_position it then
          let r := hpaLoop c rest
          ⟨r.ok, .WaypointBelowHome (i + 1) :: r.events, true⟩
        else hpaLoop c rest

/-- `checkHomePositionAltitude` (lines 152-191). -/
def checkHomePositionAltitude (c : Ctx) : SubOut :=
  hpaLoop c (List.range c.mission.length)

/-- Loop of `checkMissionItemValidity` (lines 197-282). -/
def mivLoop (c : Ctx) : List Nat → SubOut
  | [] => ⟨true, [], false⟩
  | i :: rest =>
    match dmRead c i with
    | none => ⟨false, [.StorageFailure], false⟩
    | some it =>
      if ¬isSupportedCmd it.nav_cmd then
        ⟨false, [.UnsupportedCommand (i + 1)], false⟩
      else if it.nav_cmd = .DO_SET_SERVO ∧ (it.param0 < 0 ∨ it.param0 > 5) then
        ⟨false, [.ActuatorIndexOutOfBounds], false⟩
      else if it.nav_cmd = .DO_SET_SERVO ∧
          (it.param1 < -PWM_DEFAULT_MAX ∨ it.param1 > PWM_DEFAULT_MAX) then
        ⟨false, [.ActuatorValueOutOfBounds], false⟩
      else if i = 0 ∧ it.nav_cmd = .LAND ∧ c.landed then
        ⟨false, [.StartsWithLanding], false⟩
      else mivLoop c rest

/-- `checkMissionItemValidity` (lines 193-285). -/
def checkMissionItemValidity (c : Ctx) : SubOut :=
  mivLoop c (List.range c.mission.length)

/-- Intermediate result of the first `checkTakeoff` loop: an early
return, or the loop state (`_has_takeoff`, `takeoff_first`,
`takeoff_index`) at loop exit. -/
inductive TkLoopRes where
  | fail (events : List Event) (has_takeoff : Bool)
  | done (has_takeoff takeoff_first : Bool) (takeoff_index : Option Nat)
  deriving DecidableEq, Repr

/-- First loop of `checkTakeoff` (lines 293-340). -/
def tkLoop (c : Ctx) : List Nat → Bool → Bool → Option Nat → TkLoopRes
  | [], has_takeoff, takeoff_first, takeoff_index =>
    .done has_takeoff takeoff_first takeoff_index
  | i :: rest, has_takeoff, takeoff_first, takeoff_index =>
    match dmRead c i with
    | none => .fail [] has_takeoff
    | some it =>
      if it.nav_cmd = .TAKEOFF ∨ it.nav_cmd = .VTOL_TAKEOFF then
        let takeoff_alt := takeoffAltAboveHome c.home_alt it
        let acceptance_radius := takeoffAcceptanceRadius c.default_acceptance_radius it
        if takeoff_alt - 1 < acceptance_radius then
          .fail [.TakeoffAltTooLow (acceptance_radius + 1)] has_takeoff
        else if i = 0 then
          tkLoop c rest true true takeoff_index
        else if takeoff_index = none then
          tkLoop c rest true takeoff_first (some i)
        else
          tkLoop c rest true takeoff_first takeoff_index
      else tkLoop c rest has_takeoff takeoff_first takeoff_index

/-- Second loop of `checkTakeoff` (lines 347-385): `takeoff_first` is
overwritten by the allowed-before-takeoff test of each scanned item;
`none` is an early return on a read failure. -/
def tkScan (c : Ctx) : List Nat → Bool → Option Bool
  | [], takeoff_first => some takeoff_first
  | i :: rest, _ =>
    match dmRead c i with
    | none => none
    | some it => tkScan c rest (allowedBeforeTakeoff it.nav_cmd)

/-- `checkTakeoff` (lines 287-399). -/
def checkTakeoff (c : Ctx) : TkOut :=
  match tkLoop c (List.range c.mission.length) false false none with
  | .fail evs has_takeoff => ⟨false, evs, has_takeoff⟩
  | .done has_takeoff takeoff_first takeoff_index =>
    let scanned := match takeoff_index with
      | some tidx => tkScan c (List.range tidx) takeoff_first
      | none => some takeoff_first
    match scanned with
    | none => ⟨false, [], has_takeoff⟩
    | some takeoff_first2 =>
      if has_takeoff ∧ ¬takeoff_first2 then
        ⟨false, [.TakeoffNotFirst], has_takeoff⟩
      else ⟨true, [], has_takeoff⟩

/-- Loop of `hasMissionLanding` (lines 409-421): a read failure makes the
whole scan return `false`. -/
def hmlLoop (c : Ctx) : List Nat → Bool → Bool
  | [], found => found
  | i :: rest, found =>
    match dmRead c i with
    | none => false
    | some it => hmlLoop c rest (found || it.nav_cmd == .LAND)

/-- `hasMissionLanding` (lines 401-424). -/
def hasMissionLanding (c : Ctx) : Bool :=
  hmlLoop c (List.range c.mission.length) false

/-- Intermediate result of the landing-check loops: an early return
(carrying the `_has_landing` value at that moment), or the loop state at
loop exit. -/
inductive LdLoopRes where
  | fail (events : List Event) (has_landing : Bool)
  | done (has_landing landing_valid : Bool) (do_land_start_index landing_approach_index : Nat)
  deriving DecidableEq, Repr

/-- Loop of `checkFixedWingLanding` (lines 437-580). -/
def fwLoop (c : Ctx) :
    List Nat → Bool → Bool → Nat → Nat → LdLoopRes
  | [], has_landing, landing_valid, do_land_start_index, landing_approach_index =>
    .done has_landing landing_valid do_land_start_index landing_approach_index
  | i :: rest, has_landing, landing_valid, do_land_start_index, landing_approach_index =>
    match dmRead c i with
    | none => .fail [] has_landing
    | some it =>
      if it.nav_cmd = .DO_LAND_START then
        if has_landing then .fail [.MultipleLandStart] has_landing
        else fwLoop c rest true landing_valid i landing_approach_index
      else if it.nav_cmd = .LAND then
        match c.fw_lnd_ang with
        | none => .fail [.LandAngleParamMissing] true
        | some param_fw_lnd_ang =>
          if i = 0 then .fail [.StartsWithLanding] true
          else
            match dmRead c (i - 1) with
            | none => .fail [] true
            | some prev =>
              if item_contains_position prev then
                let land_alt_amsl := normAlt c.home_alt it
                let entrance_alt_amsl := normAlt c.home_alt prev
                let relative_approach_altitude := entrance_alt_amsl - land_alt_amsl
                if relative_approach_altitude < FLT_EPSILON then
                  .fail [.ApproachBelowLand] true
                else if prev.nav_cmd = .LOITER_TO_ALT then
                  let distance_orbit_center_to_land :=
                    c.dist prev.lat prev.lon it.lat it.lon
                  let orbit_radius := |prev.loiter_radius|
                  if distance_orbit_center_to_land ≤ orbit_radius then
                    .fail [.LandInsideOrbit] true
                  else
                    let landing_approach_distance :=
                      c.sqrtQ (distance_orbit_center_to_land * distance_orbit_center_to_land -
                               orbit_radius * orbit_radius)
                    let glide_slope := relative_approach_altitude / landing_approach_distance
                    let max_glide_slope := c.tanRad (param_fw_lnd_ang + 1/10)
                    if glide_slope > max_glide_slope then
                      .fail [.GlideSlopeTooSteep, .CorrectGlideSlope] true
                    else fwLoop c rest true true do_land_start_index (i - 1)
                else if prev.nav_cmd = .WAYPOINT then
                  let landing_approach_distance := c.dist prev.lat prev.lon it.lat it.lon
                  let glide_slope := relative_approach_altitude / landing_approach_distance
                  let max_glide_slope := c.tanRad (param_fw_lnd_ang + 1/10)
                  if glide_slope > max_glide_slope then
                    .fail [.GlideSlopeTooSteep, .CorrectGlideSlope] true
                  else fwLoop c rest true true do_land_start_index (i - 1)
                else .fail [.UnsupportedApproach] true
              else .fail [.ApproachRequired] true
      else if it.nav_cmd = .RETURN_TO_LAUNCH then
        if has_landing ∧ do_land_start_index < i then
          .fail [.LandBeforeRTL] has_landing
        else fwLoop c rest has_landing landing_valid do_land_start_index landing_approach_index
      else fwLoop c rest has_landing landing_valid do_land_start_index landing_approach_index

/-- `checkFixedWingLanding` (lines 426-590); `_has_landing` enters as
`false`, reset by the orchestrator. -/
def checkFixedWingLanding (c : Ctx) : LdOut :=
  match fwLoop c (List.range c.mission.length) false false 0 0 with
  | .fail evs has_landing => ⟨false, evs, has_landing⟩
  | .done has_landing landing_valid do_land_start_index landing_approach_index =>
    if has_landing ∧ (¬landing_valid ∨ do_land_start_index > landing_approach_index) then
      ⟨false, [.InvalidLandStart], has_landing⟩
    else ⟨true, [], has_landing⟩

/-- Loop of `checkVTOLLanding` (lines 600-649). -/
def vtLoop (c : Ctx) : List Nat → Bool → Nat → Nat → LdLoopRes
  | [], has_landing, do_land_start_index, landing_approach_index =>
    .done has_landing false do_land_start_index landing_approach_index
  | i :: rest, has_landing, do_land_start_index, landing_approach_index =>
    match dmRead c i with
    | none => .fail [] has_landing
    | some it =>
      if it.nav_cmd = .DO_LAND_START then
        if has_landing then .fail [.MultipleLandStart] has_landing
        else vtLoop c rest true i landing_approach_index
      else if it.nav_cmd = .LAND ∨ it.nav_cmd = .VTOL_LAND then
        if i = 0 then .fail [.StartsWithLanding] true
        else
          match dmRead c (i - 1) with
          | none => .fail [] true
          | some _ => vtLoop c rest true do_land_start_index (i - 1)
      else if it.nav_cmd = .RETURN_TO_LAUNCH then
        if has_landing ∧ do_land_start_index < i then
          .fail [.LandBeforeRTL] has_landing
        else vtLoop c rest has_landing do_land_start_index landing_approach_index
      else vtLoop c rest has_landing do_land_start_index landing_approach_index

/-- `checkVTOLLanding` (lines 592-659). -/
def checkVTOLLanding (c : Ctx) : LdOut :=
  match vtLoop c (List.range c.mission.length) false 0 0 with
  | .fail evs has_landing => ⟨false, evs, has_landing⟩
  | .done has_landing _ do_land_start_index landing_approach_index =>
    if has_landing ∧ do_land_start_index > landing_approach_index then
      ⟨false, [.InvalidLandStart], has_landing⟩
    else ⟨true, [], has_landing⟩

/-- `checkTakeoffLandAvailable` (lines 661-722), over the derived
`_has_takeoff` / `_has_landing`. -/
def checkTakeoffLandAvailable (c : Ctx) (has_takeoff has_landing : Bool) : SubOut :=
  match c.takeoff_land_required with
  | 0 => ⟨true, [], false⟩
  | 1 => if has_takeoff then ⟨true, [], false⟩
         else ⟨false, [.TakeoffRequired], false⟩
  | 2 => if has_landing then ⟨true, [], false⟩
         else ⟨false, [.LandingRequired], false⟩
  | 3 => if has_takeoff ∧ has_landing then ⟨true, [], false⟩
         else ⟨false, [.TakeoffOrLandingMissing], false⟩
  | 4 => if has_takeoff = has_landing then ⟨true, [], false⟩
         else if has_takeoff then ⟨false, [.AddLandingOrRemoveTakeoff], false⟩
         else ⟨false, [.AddTakeoffOrRemoveLanding], false⟩
  | _ => ⟨true, [], false⟩

/-- `checkMissionFeasible` (lines 54-108): the orchestrator.  The
warning flag is reset, the empty mission is rejected with no events,
then every sub-check runs and failures are aggregated without
short-circuiting between sub-checks. -/
def checkMissionFeasible (c : Ctx) (max_distance_to_1st_waypoint max_distance_between_waypoints : ℚ) :
    CheckOut :=
  if c.mission.length = 0 then ⟨false, [], false, false, false⟩
  else
    let home_valid := c.home_global_position_valid
    let first := if ¬c.home_alt_valid then
                   (⟨false, [Event.NoPositionLock], false⟩ : SubOut)
                 else checkDistanceToFirstWaypoint c max_distance_to_1st_waypoint
    let r1 := checkMissionItemValidity c
    let r2 := checkDistancesBetweenWaypoints c max_distance_between_waypoints
    let r3 := checkGeofence c home_valid
    let r4 := checkHomePositionAltitude c
    let r5 := checkTakeoff c
    let ld : LdOut := if c.is_vtol then checkVTOLLanding c
                      else if c.is_fixed_wing then checkFixedWingLanding c
                      else ⟨true, [], hasMissionLanding c⟩
    let r7 := checkTakeoffLandAvailable c r5.has_takeoff ld.has_landing
    let failed := !first.ok || !r1.ok || !r2.ok || !r3.ok || !r4.ok || !r5.ok ||
                  !ld.ok || !r7.ok
    ⟨!failed,
     first.events ++ r1.events ++ r2.events ++ r3.events ++ r4.events ++
       r5.events ++ ld.events ++ r7.events,
     first.warning || r1.warning || r2.warning || r3.warning || r4.warning,
     r5.has_takeoff, ld.has_landing⟩

/-! ### Euler-from-DCM constructor (`matrix/Euler.hpp`) -/

/-- Abstract trig collaborators of the Euler constructor. -/
structure EulerEnv where
  asinQ : ℚ → ℚ
  atan2Q : ℚ → ℚ → ℚ
  piHalf : ℚ

/-- `Euler(const Dcm &)` (Euler.hpp, lines 48-64): the vector starts
zero-initialised and each `phi() = ...` / `psi() = ...` statement is a
sequential assignment, modelled with `Function.update`; index 0 is phi,
1 is theta, 2 is psi.  In the `theta ≈ +pi/2` branch psi is assigned
twice, and the second assignment is kept. -/
def eulerFromDcm (env : EulerEnv) (dcm : Fin 3 → Fin 3 → ℚ) : Fin 3 → ℚ :=
  let v0 : Fin 3 → ℚ := fun _ => 0
  let v1 := Function.update v0 1 (env.asinQ (-(dcm 2 0)))
  if |v1 1 - env.piHalf| < 1/1000 then
    let v2 := Function.update v1 0 0
    let v3 := Function.update v2 2 (env.atan2Q (dcm 0 1) (dcm 1 1))
    Function.update v3 2 (env.atan2Q (dcm 1 2) (dcm 0 2))
  else if |v1 1 + env.piHalf| < 1/1000 then
    let v2 := Function.update v1 0 0
    Function.update v2 2 (env.atan2Q (-(dcm 1 2)) (-(dcm 0 2)))
  else
    let v2 := Function.update v1 0 (env.atan2Q (dcm 2 1) (dcm 2 2))
    Function.update v2 2 (env.atan2Q (dcm 1 0) (dcm 0 0))

/-! ### Statement helpers

Boolean classifiers used only to phrase theorem hypotheses and
conclusions; they introduce no behaviour of their own. -/

/-- Event classifier: is this a `WaypointBelowHome` warning? -/
def isWaypointBelowHomeEvent : Event → Bool
  | .WaypointBelowHome _ => true
  | _ => false

/-- Event classifier: is this a `FirstWaypointTooFar` failure? -/
def isFirstWaypointTooFarEvent : Event → Bool
  | .FirstWaypointTooFar _ _ => true
  | _ => false

/-- Event classifier: is this a `WaypointDistanceTooFar` failure? -/
def isWaypointDistanceTooFarEvent : Event → Bool
  | .WaypointDistanceTooFar _ _ => true
  | _ => false

/-- Event classifier: is this a `GateCoincidence` failure? -/
def isGateCoincidenceEvent : Event → Bool
  | .GateCoincidence _ _ => true
  | _ => false

/-- The command stored at index `i`, tested by `p`; a failed read tests
false. -/
def cmdAt (c : Ctx) (p : NavCmd → Bool) (i : Nat) : Bool :=
  match dmRead c i with
  | some it => p it.nav_cmd
  | none => false

/-- Spec-side scan: does any readable item of the mission satisfy `p`?
Used to compare the derived `has_landing` flag against the spec's
"mission contains a LAND / VTOL_LAND / DO_LAND_START item" wording. -/
def cmdScan (c : Ctx) (p : NavCmd → Bool) : Bool :=
  (List.range c.mission.length).any (cmdAt c p)

/-- Item `j` reads successfully and is not a takeoff command. -/
def succeedsNonTakeoff (c : Ctx) (j : Nat) : Bool :=
  match dmRead c j with
  | some it => !(it.nav_cmd == .TAKEOFF || it.nav_cmd == .VTOL_TAKEOFF)
  | none => false

/-- Item `j` is not a readable takeoff command (a failed read counts). -/
def noTakeoffAt (c : Ctx) (j : Nat) : Bool :=
  match dmRead c j with
  | some it => !(it.nav_cmd == .TAKEOFF || it.nav_cmd == .VTOL_TAKEOFF)
  | none => true

/-- The `_has_landing` value carried by a landing-loop result, whether
the loop returned early or ran to completion. -/
def hlOfLd : LdLoopRes → Bool
  | .fail _ has_landing => has_landing
  | .done has_landing _ _ _ => has_landing

/-! ### Concrete inputs for witnesses and counterexamples -/

/-- A plain relative-altitude waypoint used as the base of all concrete
items. -/
def wpItem : MissionItem :=
  { nav_cmd := .WAYPOINT, lat := 47, lon := 8, altitude := 10,
    altitude_is_relative := true, acceptance_radius := 0, loiter_radius := 0,
    param0 := 0, param1 := 0 }

/-- Base context: valid home, multicopter, no geofence, benign
collaborators. -/
def baseCtx : Ctx :=
  { mission := [], home_global_position_valid := true, home_alt_valid := true,
    home_lat := 47, home_lon := 8, home_alt := 488, landed := false,
    is_vtol := false, is_fixed_wing := false, takeoff_land_required := 0,
    default_acceptance_radius := 2, geofence_valid := false,
    geofence_home_required := false, geofence_check := fun _ => true,
    fw_lnd_ang := none, dist := fun _ _ _ _ => 100, tanRad := fun _ => 1,
    sqrtQ := fun _ => 0 }

/-- C1 input: a positional WAYPOINT, then an allowed DELAY, then a valid
TAKEOFF at index 2. -/
def c1wp : MissionItem := wpItem
def c1delay : MissionItem := { wpItem with nav_cmd := .DELAY }
def c1tk : MissionItem := { wpItem with nav_cmd := .TAKEOFF, acceptance_radius := 2 }
def c1Ctx : Ctx := { baseCtx with mission := [some c1wp, some c1delay, some c1tk] }

/-- C2 input: a multicopter mission whose only item is `DO_LAND_START`. -/
def c2Ctx : Ctx :=
  { baseCtx with mission := [some { wpItem with nav_cmd := .DO_LAND_START }] }

/-- C3 input: a single-item mission whose read fails, with a valid
geofence so the geofence loop is reached. -/
def c3Ctx : Ctx := { baseCtx with mission := [none], geofence_valid := true }

/-- C4 input: invalid geofence that is home-required while home is
invalid. -/
def gfCtx : Ctx :=
  { baseCtx with
    mission := [some wpItem], geofence_valid := false,
    geofence_home_required := true, home_global_position_valid := false }

/-- C5 inputs: fixed-wing landing with a WAYPOINT entrance 50 m above
the landing point at distance 100 m, against a 45-degree limit. -/
def c5entr : MissionItem :=
  { wpItem with nav_cmd := .WAYPOINT, altitude := 50, altitude_is_relative := false }
def c5land : MissionItem :=
  { wpItem with nav_cmd := .LAND, altitude := 0, altitude_is_relative := false }
def c5Ctx : Ctx :=
  { baseCtx with
    is_fixed_wing := true, fw_lnd_ang := some 45,
    mission := [some c5entr, some c5land] }

/-- C6 input: a single takeoff item whose altitude (10 m relative) is
too low for its acceptance radius (10 m). -/
def c6It : MissionItem :=
  { wpItem with nav_cmd := .TAKEOFF, acceptance_radius := 10 }
def c6Ctx : Ctx := { baseCtx with mission := [some c6It] }

/-- C7 input: a single waypoint 5 m below home (absolute altitude 483
against home 488). -/
def c7It : MissionItem :=
  { wpItem with altitude := 483, altitude_is_relative := false }
def c7Ctx : Ctx := { baseCtx with mission := [some c7It] }

/-- C9 inputs: a trig environment pinned at the singular branch and a
constant DCM. -/
def eulerEnvW : EulerEnv :=
  { asinQ := fun _ => 0, atan2Q := fun a b => a - b, piHalf := 0 }
def dcmW : Fin 3 → Fin 3 → ℚ := fun _ _ => 1

/-- C10 input A: first waypoint 100 m from home and 100 m between the
two waypoints, against 50 m limits. -/
def c10aCtx : Ctx := { baseCtx with mission := [some wpItem, some wpItem] }

/-- C10 input B: the distance collaborator returns the first latitude,
so the first waypoint (lat 100) is too far from home while the gate
(lat 0) coincides with its predecessor. -/
def c10bCtx : Ctx :=
  { baseCtx with
    mission := [some { wpItem with lat := 100 },
                some { wpItem with nav_cmd := .CONDITION_GATE, lat := 0 }],
    dist := fun a _ _ _ => a }

/-! ### Theorems -/

/-- C8: for every vehicle state and configuration, a mission with
`count = 0` makes `checkMissionFeasible` return false immediately and
emit no events. -/
theorem c8_empty_mission (c : Ctx) (m1 m2 : ℚ) (h : c.mission.length = 0) :
    (checkMissionFeasible c m1 m2).feasible = false ∧
    (checkMissionFeasible c m1 m2).events = [] := by
  simp [checkMissionFeasible, h]

/-- C8 witness: the empty mission of the base context is rejected with
no events. -/
theorem c8_empty_mission_witness :
    (checkMissionFeasible baseCtx 0 0).feasible = false ∧
    (checkMissionFeasible baseCtx 0 0).events = [] :=
  c8_empty_mission baseCtx 0 0 (by decide)

/-- C4 counterexample: with an INVALID geofence that reports
home-required while the home position is invalid, the geofence sub-check
does not pass (it fails with `GeofenceRequiresHome`), refuting the claim
that an invalid geofence always makes the sub-check pass. -/
theorem c4_counterexample :
    gfCtx.geofence_valid = false ∧
    (checkGeofence gfCtx gfCtx.home_global_position_valid).ok = false ∧
    (checkGeofence gfCtx gfCtx.home_global_position_valid).events =
      [Event.GeofenceRequiresHome] := by decide

/-- C4 amended: when the geofence is not valid, the sub-check passes
with no events unless the geofence reports home-required while the home
position is invalid; in that case it emits `GeofenceRequiresHome` and
fails, because the home-required test precedes the validity test. -/
theorem c4_amended (c : Ctx) (hv : Bool) (h : c.geofence_valid = false) :
    checkGeofence c hv =
      if c.geofence_home_required ∧ ¬hv then
        ⟨false, [Event.GeofenceRequiresHome], false⟩
      else ⟨true, [], false⟩ := by
  unfold checkGeofence
  split
  · rfl
  · simp [h]

/-- C4 amended witness: the invalid home-required geofence context takes
the failing branch. -/
theorem c4_amended_witness :
    checkGeofence gfCtx false =
      if gfCtx.geofence_home_required ∧ ¬false then
        ⟨false, [Event.GeofenceRequiresHome], false⟩
      else ⟨true, [], false⟩ :=
  c4_amended gfCtx false (by decide)

/-- C9: in the Euler-from-DCM constructor, whenever
`theta = asin(-dcm(2,0))` is within 1.0e-3 of `+pi/2`, the resulting
angles have `phi = 0` and `psi = atan2(dcm(1,2), dcm(0,2))`: the second
of the two sequential yaw assignments is the one that takes effect. -/
theorem c9_euler_gimbal (env : EulerEnv) (dcm : Fin 3 → Fin 3 → ℚ)
    (h : |env.asinQ (-(dcm 2 0)) - env.piHalf| < 1/1000) :
    eulerFromDcm env dcm 0 = 0 ∧
    eulerFromDcm env dcm 2 = env.atan2Q (dcm 1 2) (dcm 0 2) := by
  unfold eulerFromDcm
  rw [if_pos (by rwa [Function.update_same])]
  refine ⟨?_, ?_⟩
  · rw [Function.update_noteq (by decide), Function.update_noteq (by decide),
      Function.update_same]
  · rw [Function.update_same]

unseal Rat.add Rat.sub Rat.mul Rat.inv in
/-- C9 witness: at a pinned trig environment and constant DCM the
singular branch keeps the second yaw assignment. -/
theorem c9_euler_gimbal_witness :
    eulerFromDcm eulerEnvW dcmW 0 = 0 ∧ eulerFromDcm eulerEnvW dcmW 2 = 0 := by
  have h := c9_euler_gimbal eulerEnvW dcmW (by decide)
  exact ⟨h.1, by rw [h.2]; decide⟩

unseal Rat.add Rat.sub Rat.mul Rat.inv in
/-- C1 (code bug): in `checkTakeoff`, the pre-takeoff scan overwrites
`takeoff_first` at every scanned item, so only the LAST item before the
first takeoff decides.  Concretely, a mission whose item 0 is a
positional WAYPOINT (not allowed before takeoff) followed by a DELAY and
a valid TAKEOFF at index 2 PASSES the takeoff sub-check, although the
claim (and the comment in the source, lines 343-346) requires every item
before the first takeoff to be allowed. -/
theorem c1_takeoff_scan_code_eval :
    dmRead c1Ctx 0 = some c1wp ∧
    allowedBeforeTakeoff c1wp.nav_cmd = false ∧
    dmRead c1Ctx 2 = some c1tk ∧
    c1tk.nav_cmd = NavCmd.TAKEOFF ∧
    (checkTakeoff c1Ctx).ok = true ∧
    Event.TakeoffNotFirst ∉ (checkTakeoff c1Ctx).events := by decide

/-- C2 counterexample: a multicopter mission whose only item is
`DO_LAND_START` ends the check with `has_landing = false`, although the
mission does contain a `DO_LAND_START` item, refuting the claimed
iff for every vehicle type. -/
theorem c2_counterexample :
    (checkMissionFeasible c2Ctx 0 0).has_landing = false ∧
    cmdScan c2Ctx (fun k => k == .LAND || k == .VTOL_LAND || k == .DO_LAND_START) = true := by
  decide

/-- C3 counterexample: a read failure at item 0 makes `checkTakeoff`
fail, but NO event at all is emitted — in particular no
`StorageFailure` — refuting the claim that every read failure emits a
`StorageFailure` event. -/
theorem c3_counterexample :
    dmRead c3Ctx 0 = none ∧
    (checkTakeoff c3Ctx).ok = false ∧
    (checkTakeoff c3Ctx).events = [] := by decide

/-- In the first-waypoint loop, a `FirstWaypointTooFar` event can only
come from the too-far exit, which also sets the warning flag and
fails. -/
theorem dfwLoop_fatal (c : Ctx) (m : ℚ) :
    ∀ l, ((dfwLoop c m l).events.any isFirstWaypointTooFarEvent) = true →
      (dfwLoop c m l).warning = true ∧ (dfwLoop c m l).ok = false := by
  intro l
  induction l with
  | nil => simp [dfwLoop]
  | cons i rest ih =>
    cases hr : dmRead c i with
    | none => simp [dfwLoop, hr, isFirstWaypointTooFarEvent]
    | some it =>
      simp only [dfwLoop, hr]
      split
      · split
        · simp
        · simp
      · exact ih

/-- In the inter-waypoint loop, a `WaypointDistanceTooFar` or
`GateCoincidence` event can only come from the two fatal exits, which
also set the warning flag and fail. -/
theorem dbwLoop_fatal (c : Ctx) (m : ℚ) :
    ∀ l last, ((dbwLoop c m l last).events.any
        (fun e => isWaypointDistanceTooFarEvent e || isGateCoincidenceEvent e)) = true →
      (dbwLoop c m l last).warning = true ∧ (dbwLoop c m l last).ok = false := by
  intro l
  induction l with
  | nil => simp [dbwLoop]
  | cons i rest ih =>
    intro last
    cases hr : dmRead c i with
    | none => simp [dbwLoop, hr, isWaypointDistanceTooFarEvent, isGateCoincidenceEvent]
    | some it =>
      cases last with
      | none =>
        simp only [dbwLoop, hr]
        split
        · exact ih _
        · exact ih _
      | some p =>
        obtain ⟨llat, llon, lcmd⟩ := p
        simp only [dbwLoop, hr]
        split
        · split
          · simp
          · split
            · simp
            · exact ih _
        · exact ih _

/-- C10: whenever the first-waypoint check fails with
`FirstWaypointTooFar` (case `b = true`), or the inter-waypoint check
fails with `WaypointDistanceTooFar` or `GateCoincidence` (case
`b = false`), the failing sub-check also sets `result.warning`; and the
whole `check` then ends with `warning = true` while being infeasible, so
a warning after `check` does not imply a feasible mission. -/
theorem c10_distance_warning (c : Ctx) (m1 m2 : ℚ) (b : Bool)
    (h3 : c.home_alt_valid = true)
    (h : (if b then
            (checkDistanceToFirstWaypoint c m1).events.any isFirstWaypointTooFarEvent
          else
            (checkDistancesBetweenWaypoints c m2).events.any
              (fun e => isWaypointDistanceTooFarEvent e || isGateCoincidenceEvent e)) = true) :
    (if b then
       (checkDistanceToFirstWaypoint c m1).warning = true ∧
       (checkDistanceToFirstWaypoint c m1).ok = false
     else
       (checkDistancesBetweenWaypoints c m2).warning = true ∧
       (checkDistancesBetweenWaypoints c m2).ok = false) ∧
    (checkMissionFeasible c m1 m2).warning = true ∧
    (checkMissionFeasible c m1 m2).feasible = false := by
  cases b with
  | true =>
    rw [if_pos rfl] at h ⊢
    have hd1 : (checkDistanceToFirstWaypoint c m1).warning = true ∧
        (checkDistanceToFirstWaypoint c m1).ok = false := by
      unfold checkDistanceToFirstWaypoint at h ⊢
      split at h
      · simp at h
      · split
        · simp_all
        · exact dfwLoop_fatal c m1 _ h
    have hlen : ¬c.mission.length = 0 := by
      intro h0
      rw [checkDistanceToFirstWaypoint] at h
      split at h
      · simp at h
      · rw [h0] at h
        simp [List.range_zero, dfwLoop] at h
    refine ⟨hd1, ?_, ?_⟩
    · rw [checkMissionFeasible, if_neg hlen]
      simp only [h3, Bool.not_true, Bool.false_eq_true, if_false, ite_false]
      simp [hd1.1]
    · rw [checkMissionFeasible, if_neg hlen]
      simp only [h3, Bool.not_true, Bool.false_eq_true, if_false, ite_false]
      simp [hd1.2]
  | false =>
    rw [if_neg Bool.false_ne_true] at h ⊢
    have hd2 : (checkDistancesBetweenWaypoints c m2).warning = true ∧
        (checkDistancesBetweenWaypoints c m2).ok = false := by
      unfold checkDistancesBetweenWaypoints at h ⊢
      split at h
      · simp at h
      · split
        · simp_all
        · exact dbwLoop_fatal c m2 _ _ h
    have hlen : ¬c.mission.length = 0 := by
      intro h0
      rw [checkDistancesBetweenWaypoints] at h
      split at h
      · simp at h
      · rw [h0] at h
        simp [List.range_zero, dbwLoop] at h
    refine ⟨hd2, ?_, ?_⟩
    · rw [checkMissionFeasible, if_neg hlen]
      simp [hd2.1]
    · rw [checkMissionFeasible, if_neg hlen]
      simp [hd2.2]

unseal Rat.add Rat.sub Rat.mul Rat.inv in
/-- C10 witness: input A fails the first-waypoint check (too far) and
the inter-waypoint check (too far), input B fails the inter-waypoint
check through the gate-coincidence exit, and the whole check on input A
ends warned and infeasible. -/
theorem c10_distance_warning_witness :
    ((checkDistanceToFirstWaypoint c10aCtx 50).warning = true ∧
     (checkDistanceToFirstWaypoint c10aCtx 50).ok = false) ∧
    ((checkDistancesBetweenWaypoints c10aCtx 50).warning = true ∧
     (checkDistancesBetweenWaypoints c10aCtx 50).ok = false) ∧
    ((checkDistancesBetweenWaypoints c10bCtx 50).warning = true ∧
     (checkDistancesBetweenWaypoints c10bCtx 50).ok = false) ∧
    (checkMissionFeasible c10aCtx 50 50).warning = true ∧
    (checkMissionFeasible c10aCtx 50 50).feasible = false := by
  have ha := c10_distance_warning c10aCtx 50 50 true rfl (by decide)
  have hb := c10_distance_warning c10aCtx 50 50 false rfl (by decide)
  have hc := c10_distance_warning c10bCtx 50 50 false rfl (by decide)
  refine ⟨by simpa using ha.1, by simpa using hb.1, by simpa using hc.1, ha.2.1, ha.2.2⟩

/-- A passing first-waypoint loop emits no events. -/
theorem dfwLoop_ok_events (c : Ctx) (m : ℚ) :
    ∀ l, (dfwLoop c m l).ok = true → (dfwLoop c m l).events = [] := by
  intro l
  induction l with
  | nil => simp [dfwLoop]
  | cons i rest ih =>
    cases hr : dmRead c i with
    | none => simp [dfwLoop, hr]
    | some it =>
      simp only [dfwLoop, hr]
      split
      · split
        · simp
        · simp
      · exact ih

/-- A passing first-waypoint check emits no events. -/
theorem checkDFW_ok_events (c : Ctx) (m : ℚ)
    (h : (checkDistanceToFirstWaypoint c m).ok = true) :
    (checkDistanceToFirstWaypoint c m).events = [] := by
  unfold checkDistanceToFirstWaypoint at h ⊢
  by_cases hm : m ≤ 0
  · rw [if_pos hm]
  · rw [if_neg hm] at h ⊢
    exact dfwLoop_ok_events c m _ h

/-- A passing inter-waypoint loop emits no events. -/
theorem dbwLoop_ok_events (c : Ctx) (m : ℚ) :
    ∀ l last, (dbwLoop c m l last).ok = true → (dbwLoop c m l last).events = [] := by
  intro l
  induction l with
  | nil => simp [dbwLoop]
  | cons i rest ih =>
    intro last
    cases hr : dmRead c i with
    | none => simp [dbwLoop, hr]
    | some it =>
      cases last with
      | none =>
        simp only [dbwLoop, hr]
        split
        · exact ih _
        · exact ih _
      | some p =>
        obtain ⟨llat, llon, lcmd⟩ := p
        simp only [dbwLoop, hr]
        split
        · split
          · simp
          · split
            · simp
            · exact ih _
        · exact ih _

/-- A passing inter-waypoint check emits no events. -/
theorem checkDBW_ok_events (c : Ctx) (m : ℚ)
    (h : (checkDistancesBetweenWaypoints c m).ok = true) :
    (checkDistancesBetweenWaypoints c m).events = [] := by
  unfold checkDistancesBetweenWaypoints at h ⊢
  by_cases hm : m ≤ 0
  · rw [if_pos hm]
  · rw [if_neg hm] at h ⊢
    exact dbwLoop_ok_events c m _ _ h

/-- A passing geofence loop emits no events. -/
theorem gfLoop_ok_events (c : Ctx) (hv : Bool) :
    ∀ l, (gfLoop c hv l).ok = true → (gfLoop c hv l).events = [] := by
  intro l
  induction l with
  | nil => simp [gfLoop]
  | cons i rest ih =>
    cases hr : dmRead c i with
    | none => simp [gfLoop, hr]
    | some it =>
      simp only [gfLoop, hr]
      split
      · simp
      · split
        · simp
        · exact ih

/-- A passing geofence check emits no events. -/
theorem checkGeofence_ok_events (c : Ctx) (hv : Bool)
    (h : (checkGeofence c hv).ok = true) :
    (checkGeofence c hv).events = [] := by
  unfold checkGeofence at h ⊢
  by_cases hgr : c.geofence_home_required = true ∧ ¬hv = true
  · rw [if_pos hgr] at h
    simp at h
  · rw [if_neg hgr] at h ⊢
    by_cases hgv : c.geofence_valid = true
    · rw [if_pos hgv] at h ⊢
      exact gfLoop_ok_events c hv _ h
    · rw [if_neg hgv]

/-- A passing item-validity loop emits no events. -/
theorem mivLoop_ok_events (c : Ctx) :
    ∀ l, (mivLoop c l).ok = true → (mivLoop c l).events = [] := by
  intro l
  induction l with
  | nil => simp [mivLoop]
  | cons i rest ih =>
    cases hr : dmRead c i with
    | none => simp [mivLoop, hr]
    | some it =>
      simp only [mivLoop, hr]
      split
      · simp
      · split
        · simp
        · split
          · simp
          · split
            · simp
            · exact ih

/-- A passing takeoff check emits no events. -/
theorem checkTakeoff_ok_events (c : Ctx) :
    (checkTakeoff c).ok = true → (checkTakeoff c).events = [] := by
  unfold checkTakeoff
  cases htk : tkLoop c (List.range c.mission.length) false false none with
  | fail evs hastk => simp
  | done hastk tf ti =>
    dsimp only
    cases ti with
    | none =>
      dsimp only
      split
      · simp
      · simp
    | some tidx =>
      dsimp only
      cases hsc : tkScan c (List.range tidx) tf with
      | none => simp
      | some tf2 =>
        dsimp only
        split
        · simp
        · simp

/-- A passing fixed-wing landing check emits no events. -/
theorem checkFWL_ok_events (c : Ctx) :
    (checkFixedWingLanding c).ok = true → (checkFixedWingLanding c).events = [] := by
  unfold checkFixedWingLanding
  cases hlp : fwLoop c (List.range c.mission.length) false false 0 0 with
  | fail evs hl => simp
  | done hl lv dls la =>
    dsimp only
    split
    · simp
    · simp

/-- A passing VTOL landing check emits no events. -/
theorem checkVTL_ok_events (c : Ctx) :
    (checkVTOLLanding c).ok = true → (checkVTOLLanding c).events = [] := by
  unfold checkVTOLLanding
  cases hlp : vtLoop c (List.range c.mission.length) false 0 0 with
  | fail evs hl => simp
  | done hl lv dls la =>
    dsimp only
    split
    · simp
    · simp

/-- A passing policy arbitration emits no events. -/
theorem checkTLA_ok_events (c : Ctx) (ht hl : Bool) :
    (checkTakeoffLandAvailable c ht hl).ok = true →
    (checkTakeoffLandAvailable c ht hl).events = [] := by
  unfold checkTakeoffLandAvailable
  split
  · simp
  · split
    · simp
    · simp
  · split
    · simp
    · simp
  · split
    · simp
    · simp
  · split
    · simp
    · split
      · simp
      · simp
  · simp

/-- Every event of a passing home-altitude loop is a
`WaypointBelowHome` warning. -/
theorem hpaLoop_ok_all (c : Ctx) :
    ∀ l, (hpaLoop c l).ok = true →
      (hpaLoop c l).events.all isWaypointBelowHomeEvent = true := by
  intro l
  induction l with
  | nil => simp [hpaLoop]
  | cons i rest ih =>
    cases hr : dmRead c i with
    | none => simp [hpaLoop, hr]
    | some it =>
      simp only [hpaLoop, hr]
      split
      · simp
      · split
        · intro h
          simp only [SubOut.ok] at h
          simp [isWaypointBelowHomeEvent, ih h]
        · exact ih

/-- If the whole check is feasible, every emitted event is a
`WaypointBelowHome` warning: `WaypointBelowHome` is the only non-fatal
condition. -/
theorem check_feasible_only_warnings (c : Ctx) (m1 m2 : ℚ)
    (h : (checkMissionFeasible c m1 m2).feasible = true) :
    (checkMissionFeasible c m1 m2).events.all isWaypointBelowHomeEvent = true := by
  by_cases hlen : c.mission.length = 0
  · rw [checkMissionFeasible, if_pos hlen] at h
    simp at h
  · rw [checkMissionFeasible, if_neg hlen] at h ⊢
    by_cases hav : c.home_alt_valid = true
    · rw [if_neg (by simp [hav])] at h ⊢
      simp only [Bool.not_eq_true', Bool.not_eq_false] at h
      simp only [Bool.or_eq_false_iff, Bool.not_eq_true] at h
      obtain ⟨⟨⟨⟨⟨⟨⟨h1, h2⟩, h3⟩, h4⟩, h5⟩, h6⟩, h7⟩, h8⟩ := h
      have e1 : (checkDistanceToFirstWaypoint c m1).events = [] :=
        checkDFW_ok_events c m1 (by simpa using h1)
      have e2 : (checkMissionItemValidity c).events = [] :=
        mivLoop_ok_events c _ (by simpa [checkMissionItemValidity] using h2)
      have e3 : (checkDistancesBetweenWaypoints c m2).events = [] :=
        checkDBW_ok_events c m2 (by simpa using h3)
      have e4 : (checkGeofence c c.home_global_position_valid).events = [] :=
        checkGeofence_ok_events c _ (by simpa using h4)
      have e5 : (checkHomePositionAltitude c).events.all isWaypointBelowHomeEvent = true :=
        hpaLoop_ok_all c _ (by simpa [checkHomePositionAltitude] using h5)
      have e6 : (checkTakeoff c).events = [] :=
        checkTakeoff_ok_events c (by simpa using h6)
      have e7 : (if c.is_vtol = true then checkVTOLLanding c
          else if c.is_fixed_wing = true then checkFixedWingLanding c
          else ⟨true, [], hasMissionLanding c⟩).events = [] := by
        by_cases hv : c.is_vtol = true
        · simp only [hv, if_true]
          exact checkVTL_ok_events c (by simpa [hv] using h7)
        · by_cases hf : c.is_fixed_wing = true
          · simp only [hv, if_false, hf, if_true]
            exact checkFWL_ok_events c (by simpa [hv, hf] using h7)
          · simp [hv, hf]
      have e8 := checkTLA_ok_events c (checkTakeoff c).has_takeoff
          (if c.is_vtol = true then checkVTOLLanding c
           else if c.is_fixed_wing = true then checkFixedWingLanding c
           else ⟨true, [], hasMissionLanding c⟩).has_landing (by simpa using h8)
      simp [List.all_append, e1, e2, e3, e4, e5, e6, e7, e8]
    · rw [if_pos (by simp [hav])] at h
      simp at h

/-- In the home-altitude loop, when home altitude is valid and every
read succeeds, the loop passes, and each positional item whose
normalized altitude is below home contributes a `WaypointBelowHome`
event and sets the warning flag. -/
theorem hpaLoop_below_home (c : Ctx) (hav : c.home_alt_valid = true) :
    ∀ l, (∀ j ∈ l, dmRead c j ≠ none) →
      (hpaLoop c l).ok = true ∧
      (∀ i ∈ l, ∀ it, dmRead c i = some it → item_contains_position it = true →
        normAlt c.home_alt it < c.home_alt →
        (Event.WaypointBelowHome (i + 1) ∈ (hpaLoop c l).events ∧
         (hpaLoop c l).warning = true)) := by
  intro l
  induction l with
  | nil => simp [hpaLoop]
  | cons j rest ih =>
    intro hread
    have hjr : dmRead c j ≠ none := hread j (by simp)
    have hrest : ∀ k ∈ rest, dmRead c k ≠ none := fun k hk => hread k (by simp [hk])
    obtain ⟨itj, hj⟩ : ∃ x, dmRead c j = some x := by
      cases hd : dmRead c j
      · exact absurd hd hjr
      · exact ⟨_, rfl⟩
    obtain ⟨ihok, ihmem⟩ := ih hrest
    simp only [hpaLoop, hj]
    rw [if_neg (by simp [hav])]
    by_cases hb : c.home_alt_valid = true ∧
        c.home_alt > normAlt c.home_alt itj ∧
        item_contains_position itj = true
    · rw [if_pos hb]
      refine ⟨ihok, ?_⟩
      intro i hi it hit hpos hbelow
      rcases List.mem_cons.mp hi with hij | hirest
      · subst hij
        exact ⟨List.mem_cons_self _ _, rfl⟩
      · obtain ⟨hm, _⟩ := ihmem i hirest it hit hpos hbelow
        exact ⟨List.mem_cons_of_mem _ hm, rfl⟩
    · rw [if_neg hb]
      refine ⟨ihok, ?_⟩
      intro i hi it hit hpos hbelow
      rcases List.mem_cons.mp hi with hij | hirest
      · subst hij
        rw [hj] at hit
        injection hit with hit
        subst hit
        exact absurd ⟨hav, hbelow, hpos⟩ hb
      · exact ihmem i hirest it hit hpos hbelow

/-- C7: with valid home altitude and all reads succeeding, a positional
item whose normalized AMSL altitude is below home makes the
home-altitude sub-check emit `WaypointBelowHome{index+1}` and set
`result.warning`, while the sub-check still passes; and
`WaypointBelowHome` is the only non-fatal condition: a feasible check
emits only `WaypointBelowHome` events. -/
theorem c7_below_home_warning (c : Ctx) (m1 m2 : ℚ) (i : Nat) (it : MissionItem)
    (hread : ∀ j < c.mission.length, dmRead c j ≠ none)
    (hav : c.home_alt_valid = true)
    (hi : i < c.mission.length)
    (hit : dmRead c i = some it)
    (hpos : item_contains_position it = true)
    (hbelow : normAlt c.home_alt it < c.home_alt) :
    (checkHomePositionAltitude c).ok = true ∧
    (checkHomePositionAltitude c).warning = true ∧
    Event.WaypointBelowHome (i + 1) ∈ (checkHomePositionAltitude c).events ∧
    ((checkMissionFeasible c m1 m2).feasible = true →
      (checkMissionFeasible c m1 m2).events.all isWaypointBelowHomeEvent = true) := by
  have hread2 : ∀ j ∈ List.range c.mission.length, dmRead c j ≠ none := by
    intro j hj
    exact hread j (List.mem_range.mp hj)
  obtain ⟨hok, hmem⟩ := hpaLoop_below_home c hav (List.range c.mission.length) hread2
  obtain ⟨hm, hw⟩ := hmem i (List.mem_range.mpr hi) it hit hpos hbelow
  exact ⟨hok, hw, hm, check_feasible_only_warnings c m1 m2⟩

unseal Rat.add Rat.sub Rat.mul Rat.inv in
/-- C7 witness: a single absolute-altitude waypoint 5 m below home
leaves the sub-check passing with the warning set and the event
emitted, and the whole check is feasible with only that warning. -/
theorem c7_below_home_warning_witness :
    (checkHomePositionAltitude c7Ctx).ok = true ∧
    (checkHomePositionAltitude c7Ctx).warning = true ∧
    Event.WaypointBelowHome 1 ∈ (checkHomePositionAltitude c7Ctx).events ∧
    (checkMissionFeasible c7Ctx 0 0).events.all isWaypointBelowHomeEvent = true := by
  have h := c7_below_home_warning c7Ctx 0 0 0 c7It (by decide) rfl (by decide)
    (by decide) (by decide) (by decide)
  exact ⟨h.1, h.2.1, h.2.2.1, h.2.2.2 (by decide)⟩

/-- C3 amended: a storage read failure at item 0 makes every sub-check
fail, but only the item-validity and the two distance checks emit a
`StorageFailure` event; the geofence, home-altitude, takeoff and both
landing sub-checks fail silently, the home-altitude one setting the
warning flag instead. -/
theorem c3_amended (c : Ctx) (m1 m2 : ℚ)
    (h0 : dmRead c 0 = none)
    (hlen : 0 < c.mission.length)
    (hm1 : 0 < m1) (hm2 : 0 < m2)
    (hgr : c.geofence_home_required = false)
    (hgv : c.geofence_valid = true) :
    checkMissionItemValidity c = ⟨false, [Event.StorageFailure], false⟩ ∧
    checkDistanceToFirstWaypoint c m1 = ⟨false, [Event.StorageFailure], false⟩ ∧
    checkDistancesBetweenWaypoints c m2 = ⟨false, [Event.StorageFailure], false⟩ ∧
    checkGeofence c c.home_global_position_valid = ⟨false, [], false⟩ ∧
    checkHomePositionAltitude c = ⟨false, [], true⟩ ∧
    checkTakeoff c = ⟨false, [], false⟩ ∧
    checkFixedWingLanding c = ⟨false, [], false⟩ ∧
    checkVTOLLanding c = ⟨false, [], false⟩ := by
  have hr : List.range c.mission.length =
      0 :: List.map Nat.succ (List.range (c.mission.length - 1)) := by
    conv_lhs => rw [(Nat.succ_pred_eq_of_pos hlen).symm]
    exact List.range_succ_eq_map _
  refine ⟨?_, ?_, ?_, ?_, ?_, ?_, ?_, ?_⟩
  · rw [checkMissionItemValidity, hr]
    simp [mivLoop, h0]
  · rw [checkDistanceToFirstWaypoint, if_neg (not_le.mpr hm1), hr]
    simp [dfwLoop, h0]
  · rw [checkDistancesBetweenWaypoints, if_neg (not_le.mpr hm2), hr]
    simp [dbwLoop, h0]
  · rw [checkGeofence, if_neg (by simp [hgr]), if_pos hgv, hr]
    simp [gfLoop, h0]
  · rw [checkHomePositionAltitude, hr]
    simp [hpaLoop, h0]
  · rw [checkTakeoff, hr]
    simp [tkLoop, h0]
  · rw [checkFixedWingLanding, hr]
    simp [fwLoop, h0]
  · rw [checkVTOLLanding, hr]
    simp [vtLoop, h0]

/-- C3 amended witness: the single-unreadable-item context takes every
listed branch. -/
theorem c3_amended_witness :
    checkMissionItemValidity c3Ctx = ⟨false, [Event.StorageFailure], false⟩ ∧
    checkDistanceToFirstWaypoint c3Ctx 1 = ⟨false, [Event.StorageFailure], false⟩ ∧
    checkDistancesBetweenWaypoints c3Ctx 1 = ⟨false, [Event.StorageFailure], false⟩ ∧
    checkGeofence c3Ctx c3Ctx.home_global_position_valid = ⟨false, [], false⟩ ∧
    checkHomePositionAltitude c3Ctx = ⟨false, [], true⟩ ∧
    checkTakeoff c3Ctx = ⟨false, [], false⟩ ∧
    checkFixedWingLanding c3Ctx = ⟨false, [], false⟩ ∧
    checkVTOLLanding c3Ctx = ⟨false, [], false⟩ :=
  c3_amended c3Ctx 1 1 rfl (by decide) (by decide) (by decide) rfl rfl

/-- The `has_landing` value of the fixed-wing landing check is the one
carried by its loop result, on every exit path. -/
theorem checkFWL_hl (c : Ctx) :
    (checkFixedWingLanding c).has_landing =
      hlOfLd (fwLoop c (List.range c.mission.length) false false 0 0) := by
  unfold checkFixedWingLanding
  cases fwLoop c (List.range c.mission.length) false false 0 0 with
  | fail evs hl => simp [hlOfLd]
  | done hl lv dls la =>
    dsimp only [hlOfLd]
    split <;> rfl

/-- The `has_landing` value of the VTOL landing check is the one carried
by its loop result, on every exit path. -/
theorem checkVTL_hl (c : Ctx) :
    (checkVTOLLanding c).has_landing =
      hlOfLd (vtLoop c (List.range c.mission.length) false 0 0) := by
  unfold checkVTOLLanding
  cases vtLoop c (List.range c.mission.length) false 0 0 with
  | fail evs hl => simp [hlOfLd]
  | done hl lv dls la =>
    dsimp only [hlOfLd]
    split <;> rfl

/-- When every read succeeds, the fixed-wing landing loop ends (early or
not) with `_has_landing` true exactly when it was already true or some
scanned item is `LAND` or `DO_LAND_START`. -/
theorem fwLoop_hl (c : Ctx) :
    ∀ l, (∀ j ∈ l, dmRead c j ≠ none) → ∀ hl lv dls la,
      hlOfLd (fwLoop c l hl lv dls la) =
        (hl || l.any (cmdAt c (fun k => k == .LAND || k == .DO_LAND_START))) := by
  intro l
  induction l with
  | nil =>
    intro _ hl lv dls la
    simp [fwLoop, hlOfLd]
  | cons i rest ih =>
    intro hread hl lv dls la
    have hirest : ∀ k ∈ rest, dmRead c k ≠ none :=
      fun k hk => hread k (List.mem_cons_of_mem _ hk)
    obtain ⟨it, hit⟩ : ∃ x, dmRead c i = some x := by
      cases hd : dmRead c i
      · exact absurd hd (hread i (List.mem_cons_self _ _))
      · exact ⟨_, rfl⟩
    simp only [fwLoop, hit]
    by_cases hdls : it.nav_cmd = .DO_LAND_START
    · rw [if_pos hdls]
      by_cases hhl : hl = true
      · rw [if_pos hhl]
        simp [hlOfLd, hhl]
      · rw [if_neg hhl]
        rw [ih hirest true lv i la]
        simp [cmdAt, hit, beq_iff_eq, hdls]
    · rw [if_neg hdls]
      by_cases hland : it.nav_cmd = .LAND
      · rw [if_pos hland]
        cases hang : c.fw_lnd_ang with
        | none => simp [hlOfLd, cmdAt, hit, beq_iff_eq, hland]
        | some ang =>
          dsimp only
          by_cases hi0 : i = 0
          · rw [if_pos hi0]
            simp [hlOfLd, cmdAt, hit, beq_iff_eq, hland]
          · rw [if_neg hi0]
            cases hprev : dmRead c (i - 1) with
            | none => simp [hlOfLd, cmdAt, hit, beq_iff_eq, hland]
            | some prev =>
              dsimp only
              by_cases hp : item_contains_position prev = true
              · rw [if_pos hp]
                by_cases hda : normAlt c.home_alt prev - normAlt c.home_alt it < FLT_EPSILON
                · rw [if_pos hda]
                  simp [hlOfLd, cmdAt, hit, beq_iff_eq, hland]
                · rw [if_neg hda]
                  by_cases hlo : prev.nav_cmd = .LOITER_TO_ALT
                  · rw [if_pos hlo]
                    by_cases hor : c.dist prev.lat prev.lon it.lat it.lon ≤ |prev.loiter_radius|
                    · rw [if_pos hor]
                      simp [hlOfLd, cmdAt, hit, beq_iff_eq, hland]
                    · rw [if_neg hor]
                      by_cases hgs : (normAlt c.home_alt prev - normAlt c.home_alt it) /
                          c.sqrtQ (c.dist prev.lat prev.lon it.lat it.lon *
                              c.dist prev.lat prev.lon it.lat it.lon -
                            |prev.loiter_radius| * |prev.loiter_radius|) >
                          c.tanRad (ang + 1/10)
                      · rw [if_pos hgs]
                        simp [hlOfLd, cmdAt, hit, beq_iff_eq, hland]
                      · rw [if_neg hgs]
                        rw [ih hirest true true dls (i - 1)]
                        simp [cmdAt, hit, beq_iff_eq, hland]
                  · rw [if_neg hlo]
                    by_cases hwp : prev.nav_cmd = .WAYPOINT
                    · rw [if_pos hwp]
                      by_cases hgs : (normAlt c.home_alt prev - normAlt c.home_alt it) /
                          c.dist prev.lat prev.lon it.lat it.lon > c.tanRad (ang + 1/10)
                      · rw [if_pos hgs]
                        simp [hlOfLd, cmdAt, hit, beq_iff_eq, hland]
                      · rw [if_neg hgs]
                        rw [ih hirest true true dls (i - 1)]
                        simp [cmdAt, hit, beq_iff_eq, hland]
                    · rw [if_neg hwp]
                      simp [hlOfLd, cmdAt, hit, beq_iff_eq, hland]
              · rw [if_neg hp]
                simp [hlOfLd, cmdAt, hit, beq_iff_eq, hland]
      · rw [if_neg hland]
        by_cases hrtl : it.nav_cmd = .RETURN_TO_LAUNCH
        · rw [if_pos hrtl]
          by_cases hc : hl = true ∧ dls < i
          · rw [if_pos hc]
            simp [hlOfLd, hc.1]
          · rw [if_neg hc]
            rw [ih hirest hl lv dls la]
            have hb1 : (it.nav_cmd == NavCmd.LAND) = false := beq_eq_false_iff_ne.mpr hland
            have hb2 : (it.nav_cmd == NavCmd.DO_LAND_START) = false := beq_eq_false_iff_ne.mpr hdls
            simp [cmdAt, hit, hb1, hb2]
        · rw [if_neg hrtl]
          rw [ih hirest hl lv dls la]
          have hb1 : (it.nav_cmd == NavCmd.LAND) = false := beq_eq_false_iff_ne.mpr hland
          have hb2 : (it.nav_cmd == NavCmd.DO_LAND_START) = false := beq_eq_false_iff_ne.mpr hdls
          simp [cmdAt, hit, hb1, hb2]

/-- When every read succeeds, the VTOL landing loop ends (early or not)
with `_has_landing` true exactly when it was already true or some
scanned item is `LAND`, `VTOL_LAND` or `DO_LAND_START`. -/
theorem vtLoop_hl (c : Ctx) :
    ∀ l, (∀ j ∈ l, dmRead c j ≠ none) → ∀ hl dls la,
      hlOfLd (vtLoop c l hl dls la) =
        (hl || l.any (cmdAt c (fun k => k == .LAND || k == .VTOL_LAND || k == .DO_LAND_START))) := by
  intro l
  induction l with
  | nil =>
    intro _ hl dls la
    simp [vtLoop, hlOfLd]
  | cons i rest ih =>
    intro hread hl dls la
    have hirest : ∀ k ∈ rest, dmRead c k ≠ none :=
      fun k hk => hread k (List.mem_cons_of_mem _ hk)
    obtain ⟨it, hit⟩ : ∃ x, dmRead c i = some x := by
      cases hd : dmRead c i
      · exact absurd hd (hread i (List.mem_cons_self _ _))
      · exact ⟨_, rfl⟩
    simp only [vtLoop, hit]
    by_cases hdls : it.nav_cmd = .DO_LAND_START
    · rw [if_pos hdls]
      by_cases hhl : hl = true
      · rw [if_pos hhl]
        simp [hlOfLd, hhl]
      · rw [if_neg hhl]
        rw [ih hirest true i la]
        simp [cmdAt, hit, beq_iff_eq, hdls]
    · rw [if_neg hdls]
      by_cases hland : it.nav_cmd = .LAND ∨ it.nav_cmd = .VTOL_LAND
      · rw [if_pos hland]
        by_cases hi0 : i = 0
        · rw [if_pos hi0]
          rcases hland with hland | hland <;> simp [hlOfLd, cmdAt, hit, beq_iff_eq, hland]
        · rw [if_neg hi0]
          cases hprev : dmRead c (i - 1) with
          | none => rcases hland with hland | hland <;> simp [hlOfLd, cmdAt, hit, beq_iff_eq, hland]
          | some prev =>
            dsimp only
            rw [ih hirest true dls (i - 1)]
            rcases hland with hland | hland <;> simp [cmdAt, hit, beq_iff_eq, hland]
      · rw [if_neg hland]
        by_cases hrtl : it.nav_cmd = .RETURN_TO_LAUNCH
        · rw [if_pos hrtl]
          by_cases hc : hl = true ∧ dls < i
          · rw [if_pos hc]
            simp [hlOfLd, hc.1]
          · rw [if_neg hc]
            rw [ih hirest hl dls la]
            have hb1 : (it.nav_cmd == NavCmd.LAND) = false :=
              beq_eq_false_iff_ne.mpr (fun h => hland (Or.inl h))
            have hb2 : (it.nav_cmd == NavCmd.VTOL_LAND) = false :=
              beq_eq_false_iff_ne.mpr (fun h => hland (Or.inr h))
            have hb3 : (it.nav_cmd == NavCmd.DO_LAND_START) = false := beq_eq_false_iff_ne.mpr hdls
            simp [cmdAt, hit, hb1, hb2, hb3]
        · rw [if_neg hrtl]
          rw [ih hirest hl dls la]
          have hb1 : (it.nav_cmd == NavCmd.LAND) = false :=
            beq_eq_false_iff_ne.mpr (fun h => hland (Or.inl h))
          have hb2 : (it.nav_cmd == NavCmd.VTOL_LAND) = false :=
            beq_eq_false_iff_ne.mpr (fun h => hland (Or.inr h))
          have hb3 : (it.nav_cmd == NavCmd.DO_LAND_START) = false := beq_eq_false_iff_ne.mpr hdls
          simp [cmdAt, hit, hb1, hb2, hb3]

/-- When every read succeeds, the multicopter landing scan finds exactly
the `LAND` items. -/
theorem hmlLoop_char (c : Ctx) :
    ∀ l, (∀ j ∈ l, dmRead c j ≠ none) → ∀ found,
      hmlLoop c l found = (found || l.any (cmdAt c (fun k => k == .LAND))) := by
  intro l
  induction l with
  | nil =>
    intro _ found
    simp [hmlLoop]
  | cons i rest ih =>
    intro hread found
    have hirest : ∀ k ∈ rest, dmRead c k ≠ none :=
      fun k hk => hread k (List.mem_cons_of_mem _ hk)
    obtain ⟨it, hit⟩ : ∃ x, dmRead c i = some x := by
      cases hd : dmRead c i
      · exact absurd hd (hread i (List.mem_cons_self _ _))
      · exact ⟨_, rfl⟩
    simp only [hmlLoop, hit]
    rw [ih hirest]
    simp [cmdAt, hit, beq_iff_eq, Bool.or_assoc]

/-- C2 amended: when every storage read succeeds, `has_landing` is false
after `check` iff the mission contains no landing-marker item for the
vehicle type: no `LAND`, `VTOL_LAND` or `DO_LAND_START` for VTOL, no
`LAND` or `DO_LAND_START` for fixed-wing, and no `LAND` for every other
type (the multicopter scan looks only for `LAND`). -/
theorem c2_amended (c : Ctx) (m1 m2 : ℚ)
    (hread : ∀ j < c.mission.length, dmRead c j ≠ none) :
    ((checkMissionFeasible c m1 m2).has_landing = false ↔
      (if c.is_vtol = true then
         cmdScan c (fun k => k == .LAND || k == .VTOL_LAND || k == .DO_LAND_START)
       else if c.is_fixed_wing = true then
         cmdScan c (fun k => k == .LAND || k == .DO_LAND_START)
       else cmdScan c (fun k => k == .LAND)) = false) := by
  have hread2 : ∀ j ∈ List.range c.mission.length, dmRead c j ≠ none :=
    fun j hj => hread j (List.mem_range.mp hj)
  by_cases hlen : c.mission.length = 0
  · rw [checkMissionFeasible, if_pos hlen]
    simp [cmdScan, hlen]
  · rw [checkMissionFeasible, if_neg hlen]
    dsimp only
    by_cases hv : c.is_vtol = true
    · rw [if_pos hv, if_pos hv]
      rw [checkVTL_hl c, vtLoop_hl c _ hread2 false 0 0]
      simp [cmdScan]
    · rw [if_neg hv, if_neg hv]
      by_cases hf : c.is_fixed_wing = true
      · rw [if_pos hf, if_pos hf]
        rw [checkFWL_hl c, fwLoop_hl c _ hread2 false false 0 0]
        simp [cmdScan]
      · rw [if_neg hf, if_neg hf]
        dsimp only
        rw [show (hasMissionLanding c) = hmlLoop c (List.range c.mission.length) false from rfl,
          hmlLoop_char c _ hread2 false]
        simp [cmdScan]

/-- C2 amended witness: the multicopter `DO_LAND_START`-only mission
instantiates the amended equivalence. -/
theorem c2_amended_witness :
    ((checkMissionFeasible c2Ctx 0 0).has_landing = false ↔
      (if c2Ctx.is_vtol = true then
         cmdScan c2Ctx (fun k => k == .LAND || k == .VTOL_LAND || k == .DO_LAND_START)
       else if c2Ctx.is_fixed_wing = true then
         cmdScan c2Ctx (fun k => k == .LAND || k == .DO_LAND_START)
       else cmdScan c2Ctx (fun k => k == .LAND)) = false) :=
  c2_amended c2Ctx 0 0 (by decide)

/-- If the fixed-wing landing loop reaches its exit without an early
return, every scanned `LAND` item at a positive index with a readable
entrance satisfies the glide-slope geometry of its entrance type. -/
theorem fwLoop_done_slope (c : Ctx) (ang : ℚ) (i : Nat) (it prev : MissionItem)
    (hang : c.fw_lnd_ang = some ang)
    (hit : dmRead c i = some it)
    (hcmd : it.nav_cmd = NavCmd.LAND)
    (hi0 : ¬i = 0)
    (hprev : dmRead c (i - 1) = some prev) :
    ∀ l hl lv dls la hl2 lv2 dls2 la2,
      fwLoop c l hl lv dls la = .done hl2 lv2 dls2 la2 → i ∈ l →
      ((prev.nav_cmd = NavCmd.WAYPOINT →
          (normAlt c.home_alt prev - normAlt c.home_alt it) /
            c.dist prev.lat prev.lon it.lat it.lon ≤ c.tanRad (ang + 1/10)) ∧
       (prev.nav_cmd = NavCmd.LOITER_TO_ALT →
          |prev.loiter_radius| < c.dist prev.lat prev.lon it.lat it.lon ∧
          (normAlt c.home_alt prev - normAlt c.home_alt it) /
            c.sqrtQ (c.dist prev.lat prev.lon it.lat it.lon *
                c.dist prev.lat prev.lon it.lat it.lon -
              |prev.loiter_radius| * |prev.loiter_radius|) ≤ c.tanRad (ang + 1/10))) := by
  intro l
  induction l with
  | nil =>
    intro hl lv dls la hl2 lv2 dls2 la2 _ hmem
    exact absurd hmem (List.not_mem_nil i)
  | cons j rest ih =>
    intro hl lv dls la hl2 lv2 dls2 la2 hdone hmem
    cases hr : dmRead c j with
    | none =>
      simp only [fwLoop, hr] at hdone
      cases hdone
    | some itj =>
      simp only [fwLoop, hr] at hdone
      rcases List.mem_cons.mp hmem with rfl | hmem2
      · have hsame : itj = it := by
          rw [hr] at hit
          exact Option.some.inj hit
        subst hsame
        rw [if_neg (by simp [hcmd]), if_pos hcmd, hang] at hdone
        dsimp only at hdone
        rw [if_neg hi0, hprev] at hdone
        dsimp only at hdone
        by_cases hp : item_contains_position prev = true
        · rw [if_pos hp] at hdone
          by_cases hda : normAlt c.home_alt prev - normAlt c.home_alt itj < FLT_EPSILON
          · rw [if_pos hda] at hdone
            simp at hdone
          · rw [if_neg hda] at hdone
            by_cases hlo : prev.nav_cmd = NavCmd.LOITER_TO_ALT
            · rw [if_pos hlo] at hdone
              by_cases hor : c.dist prev.lat prev.lon itj.lat itj.lon ≤ |prev.loiter_radius|
              · rw [if_pos hor] at hdone
                simp at hdone
              · rw [if_neg hor] at hdone
                by_cases hgs : (normAlt c.home_alt prev - normAlt c.home_alt itj) /
                    c.sqrtQ (c.dist prev.lat prev.lon itj.lat itj.lon *
                        c.dist prev.lat prev.lon itj.lat itj.lon -
                      |prev.loiter_radius| * |prev.loiter_radius|) >
                    c.tanRad (ang + 1/10)
                · rw [if_pos hgs] at hdone
                  simp at hdone
                · refine ⟨fun hw => absurd (hlo.symm.trans hw) (by simp), fun _ => ?_⟩
                  exact ⟨not_le.mp hor, not_lt.mp hgs⟩
            · rw [if_neg hlo] at hdone
              by_cases hwp : prev.nav_cmd = NavCmd.WAYPOINT
              · rw [if_pos hwp] at hdone
                by_cases hgs : (normAlt c.home_alt prev - normAlt c.home_alt itj) /
                    c.dist prev.lat prev.lon itj.lat itj.lon > c.tanRad (ang + 1/10)
                · rw [if_pos hgs] at hdone
                  simp at hdone
                · exact ⟨fun _ => not_lt.mp hgs, fun hw => absurd (hw.symm.trans hwp) (by simp)⟩
              · rw [if_neg hwp] at hdone
                simp at hdone
        · rw [if_neg hp] at hdone
          simp at hdone
      · repeat' split at hdone
        all_goals first
          | exact ih _ _ _ _ _ _ _ _ hdone hmem2
          | simp at hdone

/-- C5: if the fixed-wing landing check passes, every `LAND` item at a
positive index satisfies the glide-slope bound against
`tan(radians(FW_LND_ANG + 0.1°))`, with the approach distance taken
directly for a `WAYPOINT` entrance and as the tangent length
`√(D² − r²)` for a `LOITER_TO_ALT` entrance, which additionally must
have its landing point outside the orbit radius (`r < D`). -/
theorem c5_glide_slope (c : Ctx) (ang : ℚ) (i : Nat) (it prev : MissionItem)
    (hok : (checkFixedWingLanding c).ok = true)
    (hang : c.fw_lnd_ang = some ang)
    (hi : i < c.mission.length)
    (hit : dmRead c i = some it)
    (hcmd : it.nav_cmd = NavCmd.LAND)
    (hi0 : 0 < i)
    (hprev : dmRead c (i - 1) = some prev) :
    ((prev.nav_cmd = NavCmd.WAYPOINT →
        (normAlt c.home_alt prev - normAlt c.home_alt it) /
          c.dist prev.lat prev.lon it.lat it.lon ≤ c.tanRad (ang + 1/10)) ∧
     (prev.nav_cmd = NavCmd.LOITER_TO_ALT →
        |prev.loiter_radius| < c.dist prev.lat prev.lon it.lat it.lon ∧
        (normAlt c.home_alt prev - normAlt c.home_alt it) /
          c.sqrtQ (c.dist prev.lat prev.lon it.lat it.lon *
              c.dist prev.lat prev.lon it.lat it.lon -
            |prev.loiter_radius| * |prev.loiter_radius|) ≤ c.tanRad (ang + 1/10))) := by
  unfold checkFixedWingLanding at hok
  cases hres : fwLoop c (List.range c.mission.length) false false 0 0 with
  | fail evs hl =>
    rw [hres] at hok
    simp at hok
  | done hl2 lv2 dls2 la2 =>
    exact fwLoop_done_slope c ang i it prev hang hit hcmd (by omega) hprev
      _ false false 0 0 hl2 lv2 dls2 la2 hres (List.mem_range.mpr hi)

unseal Rat.add Rat.sub Rat.mul Rat.inv in
/-- C5 witness: the concrete 50 m / 100 m WAYPOINT-entrance landing
passes the check and satisfies the instantiated slope bound. -/
theorem c5_glide_slope_witness :
    (checkFixedWingLanding c5Ctx).ok = true ∧
    (normAlt c5Ctx.home_alt c5entr - normAlt c5Ctx.home_alt c5land) /
        c5Ctx.dist c5entr.lat c5entr.lon c5land.lat c5land.lon ≤
      c5Ctx.tanRad (45 + 1/10) := by
  refine ⟨by decide, ?_⟩
  exact (c5_glide_slope c5Ctx 45 1 c5land c5entr (by decide) rfl (by decide) rfl rfl
    (by decide) rfl).1 rfl

/-- Splitting `List.range` at an intermediate index. -/
theorem range_split (i n : Nat) (h : i ≤ n) :
    List.range n = List.range i ++ List.range' i (n - i) := by
  have h2 := List.range'_append 0 i (n - i) 1
  simp only [Nat.one_mul, Nat.zero_add] at h2
  rw [List.range_eq_range', List.range_eq_range', h2]
  congr 1
  omega

/-- The takeoff loop over a concatenation runs the first part and, when
that part does not return early, continues with the carried state. -/
theorem tkLoop_append (c : Ctx) :
    ∀ l1 l2 a b d, tkLoop c (l1 ++ l2) a b d =
      (match tkLoop c l1 a b d with
       | .fail e h => .fail e h
       | .done a2 b2 d2 => tkLoop c l2 a2 b2 d2) := by
  intro l1
  induction l1 with
  | nil => intro l2 a b d; rfl
  | cons i rest ih =>
    intro l2 a b d
    cases hr : dmRead c i with
    | none => simp only [List.cons_append, tkLoop, hr]
    | some it =>
      simp only [List.cons_append, tkLoop, hr]
      split
      · split
        · rfl
        · split
          · exact ih _ _ _ _
          · split
            · exact ih _ _ _ _
            · exact ih _ _ _ _
      · exact ih _ _ _ _

/-- Items that read successfully and are not takeoff commands leave the
takeoff loop state untouched. -/
theorem tkLoop_skip (c : Ctx) :
    ∀ l, (∀ j ∈ l, succeedsNonTakeoff c j = true) → ∀ a b d,
      tkLoop c l a b d = .done a b d := by
  intro l
  induction l with
  | nil => intro _ a b d; rfl
  | cons i rest ih =>
    intro h a b d
    have hi := h i (List.mem_cons_self _ _)
    obtain ⟨it, hr⟩ : ∃ x, dmRead c i = some x := by
      cases hd : dmRead c i
      · rw [succeedsNonTakeoff, hd] at hi
        simp at hi
      · exact ⟨_, rfl⟩
    rw [succeedsNonTakeoff, hr] at hi
    simp only [Bool.not_eq_true', Bool.or_eq_false_iff, beq_eq_false_iff_ne] at hi
    simp only [tkLoop, hr]
    rw [if_neg (by rintro (hh | hh) <;> [exact hi.1 hh; exact hi.2 hh])]
    exact ih (fun k hk => h k (List.mem_cons_of_mem _ hk)) a b d

/-- Over items none of which is a readable takeoff command, the takeoff
loop either stops on a read failure with no event or finishes with its
state untouched. -/
theorem tkLoop_noTk (c : Ctx) :
    ∀ l, (∀ j ∈ l, noTakeoffAt c j = true) → ∀ a b d,
      tkLoop c l a b d = .fail [] a ∨ tkLoop c l a b d = .done a b d := by
  intro l
  induction l with
  | nil => intro _ a b d; exact Or.inr rfl
  | cons i rest ih =>
    intro h a b d
    have hi := h i (List.mem_cons_self _ _)
    cases hr : dmRead c i with
    | none =>
      left
      simp [tkLoop, hr]
    | some it =>
      rw [noTakeoffAt, hr] at hi
      simp only [Bool.not_eq_true', Bool.or_eq_false_iff, beq_eq_false_iff_ne] at hi
      simp only [tkLoop, hr]
      rw [if_neg (by rintro (hh | hh) <;> [exact hi.1 hh; exact hi.2 hh])]
      exact ih (fun k hk => h k (List.mem_cons_of_mem _ hk)) a b d

/-- The pre-takeoff scan finishes (with some overwritten flag value)
whenever every scanned item reads successfully. -/
theorem tkScan_some (c : Ctx) :
    ∀ l t, (∀ j ∈ l, succeedsNonTakeoff c j = true) →
      ∃ t2, tkScan c l t = some t2 := by
  intro l
  induction l with
  | nil => intro t _; exact ⟨t, rfl⟩
  | cons i rest ih =>
    intro t h
    have hi := h i (List.mem_cons_self _ _)
    obtain ⟨it, hr⟩ : ∃ x, dmRead c i = some x := by
      cases hd : dmRead c i
      · rw [succeedsNonTakeoff, hd] at hi
        simp at hi
      · exact ⟨_, rfl⟩
    simp only [tkScan, hr]
    exact ih _ (fun k hk => h k (List.mem_cons_of_mem _ hk))

/-- C6: for a mission whose only takeoff item sits at index `i` (read
successfully, items before it read successfully), the takeoff sub-check
fails with exactly the event
`TakeoffAltTooLow{min = acceptance_radius + 1}` if and only if
`takeoff_alt_above_home − 1 < acceptance_radius`, where the altitude is
the stored one if relative (else minus home altitude) and the radius is
the item's when above `NAV_EPSILON_POSITION`, else the default. -/
theorem c6_takeoff_alt (c : Ctx) (i : Nat) (it : MissionItem)
    (hi : i < c.mission.length)
    (hit : dmRead c i = some it)
    (htk : it.nav_cmd = NavCmd.TAKEOFF ∨ it.nav_cmd = NavCmd.VTOL_TAKEOFF)
    (hbefore : ∀ j < i, succeedsNonTakeoff c j = true)
    (hafter : ∀ j < c.mission.length, i < j → noTakeoffAt c j = true) :
    (((checkTakeoff c).ok = false ∧
      (checkTakeoff c).events =
        [Event.TakeoffAltTooLow
          (takeoffAcceptanceRadius c.default_acceptance_radius it + 1)]) ↔
     takeoffAltAboveHome c.home_alt it - 1 <
       takeoffAcceptanceRadius c.default_acceptance_radius it) := by
  have hsplit : List.range c.mission.length =
      List.range i ++ (i :: List.range' (i + 1) (c.mission.length - i - 1)) := by
    rw [range_split i c.mission.length (le_of_lt hi)]
    conv_lhs =>
      rw [show c.mission.length - i = (c.mission.length - i - 1) + 1 from by omega,
        List.range'_succ]
  have hskip : ∀ j ∈ List.range i, succeedsNonTakeoff c j = true :=
    fun j hj => hbefore j (List.mem_range.mp hj)
  have hrest : ∀ j ∈ List.range' (i + 1) (c.mission.length - i - 1),
      noTakeoffAt c j = true := by
    intro j hj
    obtain ⟨h1, h2⟩ := List.mem_range'_1.mp hj
    exact hafter j (by omega) (by omega)
  unfold checkTakeoff
  rw [hsplit, tkLoop_append, tkLoop_skip c _ hskip false false none]
  dsimp only
  simp only [tkLoop, hit]
  rw [if_pos htk]
  by_cases hcond : takeoffAltAboveHome c.home_alt it - 1 <
      takeoffAcceptanceRadius c.default_acceptance_radius it
  · rw [if_pos hcond]
    simp [hcond]
  · rw [if_neg hcond]
    by_cases hi0 : i = 0
    · rw [if_pos hi0]
      rcases tkLoop_noTk c _ hrest true true none with hc | hc <;> rw [hc] <;> simp [hcond]
    · rw [if_neg hi0, if_pos trivial]
      rcases tkLoop_noTk c _ hrest true false (some i) with hc | hc <;> rw [hc]
      · simp [hcond]
      · obtain ⟨t2, ht2⟩ := tkScan_some c _ false hskip
        dsimp only
        rw [ht2]
        dsimp only
        by_cases htf : (true = true ∧ ¬t2 = true)
        · rw [if_pos htf]
          simp [hcond]
        · rw [if_neg htf]
          simp [hcond]

unseal Rat.add Rat.sub Rat.mul Rat.inv in
/-- C6 witness: the single low takeoff item (10 m relative altitude,
10 m acceptance radius) makes the check fail with exactly
`TakeoffAltTooLow 11`. -/
theorem c6_takeoff_alt_witness :
    (checkTakeoff c6Ctx).ok = false ∧
    (checkTakeoff c6Ctx).events = [Event.TakeoffAltTooLow 11] := by
  have h := c6_takeoff_alt c6Ctx 0 c6It (by decide) rfl (Or.inl rfl)
    (fun j hj => absurd hj (Nat.not_lt_zero j))
    (fun j hj1 hj2 => by
      have hlen : c6Ctx.mission.length = 1 := rfl
      rw [hlen] at hj1
      exact absurd hj2 (by omega))
  have h2 := h.mpr (by decide)
  exact ⟨h2.1, by rw [h2.2]; decide⟩

end MFC
